import Mathlib

/-!
Shallow embedding of `src/main.py` (webhook-driven Instagram conversational
relay): the per-user bounded conversation store (`conversations`,
`add_to_history`, `get_history`), the reply orchestrator
(`generate_ai_reply` and the inline handling in `webhook`), and the
POST `webhook` handler with its HMAC signature gate.

Modelling conventions:
* bytes are `List Nat`;
* Python `dict` state (`conversations`, a `defaultdict` of `deque(maxlen=10)`)
  is an association list threaded explicitly; `defaultdict` key creation on
  read is modelled faithfully (`get_history` returns the possibly-extended
  store together with the snapshot list);
* the external `hmac`/`hashlib` primitive is an abstract keyed function
  `mac : String → List Nat → String` standing for
  `hmac.new(secret.encode(), body, sha256).hexdigest()`;
* `json.loads(raw_body.decode("utf-8"))` is an abstract
  `parse : List Nat → Except String Payload`; a `parse` error models the
  decode/JSON exception raised at line 80 of the source (outside the `try`),
  while shape anomalies reachable inside the `try` (missing `"entry"` key,
  empty `entry` list, missing `sender`) are encoded in `Payload`;
* the OpenAI client call is an abstract
  `provider : List Turn → ProviderResult`; raising is `ProviderResult.failure`,
  a `None` message content (whose `.strip()` raises, caught by the inner
  `except`) is `ProviderResult.success none`;
* the outbound `send_message` call (a fire-and-forget HTTP POST whose
  response is only logged) is recorded as a `(recipient, text)` effect in a
  list rather than performed;
* exceptions are `Except`/`Option String` values; an exception inside the
  `for` loop aborts the remaining iterations but keeps effects already made,
  as the single `try/except` around the whole loop does.
-/

namespace InstGPT

/-- One message of a conversation: a role tag (`"user"` / `"assistant"` /
`"system"`) and its text, as the dicts built in `add_to_history`. -/
structure Turn where
  role : String
  content : String
deriving DecidableEq, Repr

/-- The `conversations` mapping, user id to stored turns, as an association
list in insertion order (Python dicts preserve insertion order). -/
abbrev Store := List (String × List Turn)

/-- Dictionary lookup: the stored list for a key, if present. -/
def Store.find : Store → String → Option (List Turn)
  | [], _ => none
  | (k, v) :: rest, u => if k = u then some v else Store.find rest u

/-- Dictionary update: overwrite the value at an existing key, or add the
key at the end (Python insertion order) when absent. -/
def Store.set : Store → String → List Turn → Store
  | [], u, v => [(u, v)]
  | (k, w) :: rest, u, v =>
    if k = u then (k, v) :: rest else (k, w) :: Store.set rest u v

/-- Source line 39: `MAX_CONTEXT_MESSAGES = 10`. -/
def MAX_CONTEXT_MESSAGES : Nat := 10

/-- Appending to a `collections.deque(maxlen=n)`: the new element goes to the
right; when the length would exceed `n`, elements are discarded from the
left. -/
def dequeAppend (maxlen : Nat) (l : List Turn) (t : Turn) : List Turn :=
  let grown := l ++ [t]
  if maxlen < grown.length then grown.drop (grown.length - maxlen) else grown

/-- Source `add_to_history(user_id, role, content)`:
`conversations[user_id].append({"role": role, "content": content})`.
The `defaultdict` read creates an empty deque when the key is absent; the
append then bounds it at `MAX_CONTEXT_MESSAGES`. -/
def add_to_history (s : Store) (user_id role content : String) : Store :=
  let conv := (Store.find s user_id).getD []
  Store.set s user_id (dequeAppend MAX_CONTEXT_MESSAGES conv ⟨role, content⟩)

/-- Source `get_history(user_id)`: `list(conversations[user_id])`. The
`defaultdict` read inserts an empty deque for an unseen key (a real side
effect on the mapping), then the snapshot list is returned. Result: the
store after the read, and the snapshot. -/
def get_history (s : Store) (user_id : String) : Store × List Turn :=
  match Store.find s user_id with
  | some conv => (s, conv)
  | none => (Store.set s user_id [], [])

/-- The environment configuration read at lines 28-33 of the source. -/
structure Config where
  VERIFY_TOKEN : String
  APP_SECRET : String
  PAGE_TOKEN : String
  OPENAI_API_KEY : String
  SYSTEM_PROMPT : String
deriving DecidableEq, Repr

/-- Outcome of `client.chat.completions.create(...)`:
`failure e` models the call raising an exception; `success c` models a
normal return with `completion.choices[0].message.content = c`
(`none` standing for Python `None`, whose `.strip()` raises and is caught
by the same `except`). -/
inductive ProviderResult where
  | success : Option String → ProviderResult
  | failure : String → ProviderResult
deriving DecidableEq, Repr

/-- Fallback returned when `OPENAI_API_KEY` is unset (source line 172). -/
def FALLBACK_NO_KEY : String :=
  "Извините, сейчас сервер не настроен. Попробуйте позже."

/-- Fallback returned when the stripped completion text is empty
(source line 187). -/
def FALLBACK_EMPTY : String :=
  "Извините, сейчас не могу ответить. Напишите, пожалуйста, чуть позже."

/-- Fallback returned when the provider call raises (source line 193). -/
def FALLBACK_ERROR : String :=
  "Извините, сейчас есть небольшие технические неполадки. Менеджер ответит вам позже."

/-- The built-in default persona text (`base_system_prompt`, lines 129-166);
its exact wording is irrelevant to every claim, so line breaks are kept and
the body is reproduced in abridged form. -/
def base_system_prompt : String :=
  "\nТы — умный AI-ассистент компании.\nТы отвечаешь в Instagram Direct как живой сотрудник — быстро, чётко и по делу.\nТВОЯ ЦЕЛЬ: помогать клиенту, давать точную информацию и приводить к продаже или нужному действию.\n"

/-- Source `generate_ai_reply(user_id)`, lines 124-193, with the store
threaded: picks the configured or built-in system prompt (`SYSTEM_PROMPT or
base_system_prompt`, empty string falsy), short-circuits when no API key is
configured, otherwise reads the history (a `defaultdict` read that can
extend the store), calls the provider on system prompt + history, strips
the reply, and maps each failure mode to its fixed fallback string.
Returns the store after the history read and the reply text. -/
def generate_ai_reply (cfg : Config) (provider : List Turn → ProviderResult)
    (s : Store) (user_id : String) : Store × String :=
  let system_prompt := if cfg.SYSTEM_PROMPT = "" then base_system_prompt else cfg.SYSTEM_PROMPT
  if cfg.OPENAI_API_KEY = "" then
    (s, FALLBACK_NO_KEY)
  else
    let read := get_history s user_id
    let messages : List Turn := ⟨"system", system_prompt⟩ :: read.2
    match provider messages with
    | ProviderResult.failure _ => (read.1, FALLBACK_ERROR)
    | ProviderResult.success none => (read.1, FALLBACK_ERROR)
    | ProviderResult.success (some content) =>
      let reply := content.trim
      if reply = "" then (read.1, FALLBACK_EMPTY) else (read.1, reply)

/-- Lines 104-114 of the `webhook` handler, for one accepted text message:
append the inbound text as a `"user"` turn, generate the reply, append the
reply as an `"assistant"` turn (unconditionally — also when the reply is a
fallback string). Returns the final store and the reply text handed to
`send_message`. -/
def handle_text_message (cfg : Config) (provider : List Turn → ProviderResult)
    (s : Store) (sender_id text : String) : Store × String :=
  let s1 := add_to_history s sender_id "user" text
  let gen := generate_ai_reply cfg provider s1 sender_id
  let s3 := add_to_history gen.1 sender_id "assistant" gen.2
  (s3, gen.2)

/-- The `"message"` object of one messaging sub-event. `text` and `is_echo`
model the presence/absence of those keys; `has_other_keys` models whether
the dict carries any further keys, so that Python dict truthiness
(`if not message`) is expressible. -/
structure MessageBlock where
  text : Option String
  is_echo : Option Bool
  has_other_keys : Bool
deriving DecidableEq, Repr

/-- Python falsiness of the `message` dict itself: the empty dict. -/
def MessageBlock.isEmptyDict (m : MessageBlock) : Bool :=
  m.text = none && m.is_echo = none && !m.has_other_keys

/-- One element of an entry's `"messaging"` list. `sender_id = none` models
a sub-event where `msg["sender"]["id"]` raises `KeyError` (missing key),
which the surrounding `try` catches. -/
structure Msg where
  sender_id : Option String
  message : Option MessageBlock
deriving DecidableEq, Repr

/-- One element of the `"entry"` array; `entry.get("messaging", [])`
defaults a missing key to the empty list, so only the list is kept. -/
structure Entry where
  messaging : List Msg
deriving DecidableEq, Repr

/-- The parsed JSON body. `entry = none` models a document where
`data["entry"]` raises (missing key or non-dict document), which the
surrounding `try` catches. -/
structure Payload where
  entry : Option (List Entry)
deriving DecidableEq, Repr

/-- The `for msg in messaging` loop, lines 87-115: skip sub-events with a
falsy `message` block, skip echoes, otherwise read the sender id (raising
when absent), default missing text to `""`, and run the text-message path,
recording the outbound `send_message` call. A raise aborts the remaining
iterations but keeps the effects already made; the third component is the
pending exception, if any. -/
def process_messaging (cfg : Config) (provider : List Turn → ProviderResult) :
    List Msg → Store → List (String × String) →
    Store × List (String × String) × Option String
  | [], s, sends => (s, sends, none)
  | msg :: rest, s, sends =>
    match msg.message with
    | none => process_messaging cfg provider rest s sends
    | some m =>
      if m.isEmptyDict then
        process_messaging cfg provider rest s sends
      else if m.is_echo = some true then
        process_messaging cfg provider rest s sends
      else
        match msg.sender_id with
        | none => (s, sends, some "KeyError: sender")
        | some sender_id =>
          let text := m.text.getD ""
          let handled := handle_text_message cfg provider s sender_id text
          process_messaging cfg provider rest handled.1
            (sends ++ [(sender_id, handled.2)])

/-- Lines 84-115 inside the `try`: `entry = data["entry"][0]` takes only the
first element of the `entry` array (raising when the key is missing or the
array is empty), then iterates over that entry's `messaging` list. Entries
after the first are never looked at. -/
def process_event (cfg : Config) (provider : List Turn → ProviderResult)
    (data : Payload) (s : Store) :
    Store × List (String × String) × Option String :=
  match data.entry with
  | none => (s, [], some "KeyError: entry")
  | some [] => (s, [], some "IndexError: list index out of range")
  | some (e :: _) => process_messaging cfg provider e.messaging s []

/-- The two JSON bodies the POST handler can return normally. -/
inductive Response where
  | ok
  | badSignature
deriving DecidableEq, Repr

/-- Rendered JSON of each response dict. -/
def Response.body : Response → String
  | Response.ok => "\x7b\"status\": \"ok\"\x7d"
  | Response.badSignature => "\x7b\"status\": \"bad signature\"\x7d"

/-- FastAPI returns a plain dict with the default status code in both
branches of the POST handler. -/
def Response.status_code : Response → Nat
  | Response.ok => 200
  | Response.badSignature => 200

/-- Line 74: `"sha256=" + hmac.new(APP_SECRET.encode(), raw_body,
hashlib.sha256).hexdigest()`, with the keyed-hash primitive abstract. -/
def expected_signature (mac : String → List Nat → String)
    (secret : String) (raw_body : List Nat) : String :=
  "sha256=" ++ mac secret raw_body

/-- Line 76: `hmac.compare_digest(signature, expected_signature)` — a
constant-time comparison whose value is exact string equality. -/
def verify_signature (mac : String → List Nat → String)
    (secret : String) (raw_body : List Nat) (signature : String) : Bool :=
  signature = expected_signature mac secret raw_body

/-- The POST `webhook` handler, lines 69-120. `signature` is the
`x-hub-signature-256` header with default `""` when absent. On signature
mismatch the handler returns the bad-signature dict untouched. Otherwise
`json.loads(raw_body.decode("utf-8"))` runs OUTSIDE the `try`, so a parse
exception propagates out of the handler (`Except.error`). On a parsed
payload the dispatch runs inside the `try`: its pending exception, if any,
is logged and swallowed, and the handler acknowledges with the ok dict,
the store as mutated so far, and the outbound sends made so far. -/
def webhook (mac : String → List Nat → String)
    (parse : List Nat → Except String Payload)
    (cfg : Config) (provider : List Turn → ProviderResult)
    (s : Store) (raw_body : List Nat) (signature : String) :
    Except String (Response × Store × List (String × String)) :=
  if verify_signature mac cfg.APP_SECRET raw_body signature then
    match parse raw_body with
    | Except.error e => Except.error e
    | Except.ok data =>
      let r := process_event cfg provider data s
      Except.ok (Response.ok, r.1, r.2.1)
  else
    Except.ok (Response.badSignature, s, [])

/-- Classifier for the three provider-failure modes of `generate_ai_reply`
(lines 179-193): an exception or a `None` content (whose `.strip()` raises)
yields `FALLBACK_ERROR`; a text that strips to empty yields
`FALLBACK_EMPTY`; a non-empty stripped text is a success (`none`). -/
def provider_fallback : ProviderResult → Option String
  | ProviderResult.failure _ => some FALLBACK_ERROR
  | ProviderResult.success none => some FALLBACK_ERROR
  | ProviderResult.success (some c) =>
    if c.trim = "" then some FALLBACK_EMPTY else none

/-! Helper lemmas about the store and the bounded deque. -/

theorem Turn.eta (t : Turn) : Turn.mk t.role t.content = t := rfl

theorem Store.find_set_self (s : Store) (u : String) (v : List Turn) :
    Store.find (Store.set s u v) u = some v := by
  induction s with
  | nil => simp [Store.set, Store.find]
  | cons kv rest ih =>
    obtain ⟨k, w⟩ := kv
    by_cases hk : k = u
    · simp [Store.set, Store.find, hk]
    · simp [Store.set, Store.find, hk, ih]

theorem Store.find_set_ne (s : Store) (u v : String) (w : List Turn)
    (h : v ≠ u) : Store.find (Store.set s u w) v = Store.find s v := by
  induction s with
  | nil => simp [Store.set, Store.find, Ne.symm h]
  | cons kv rest ih =>
    obtain ⟨k, w0⟩ := kv
    by_cases hk : k = u
    · subst hk
      simp [Store.set, Store.find, Ne.symm h, ih]
    · simp [Store.set, Store.find, hk, ih]

theorem get_history_snd (s : Store) (u : String) :
    (get_history s u).2 = (Store.find s u).getD [] := by
  cases h : Store.find s u with
  | none => simp [get_history, h]
  | some conv => simp [get_history, h]

theorem get_history_add_self (s : Store) (u r c : String) :
    (get_history (add_to_history s u r c) u).2 =
      dequeAppend MAX_CONTEXT_MESSAGES ((get_history s u).2) ⟨r, c⟩ := by
  simp [get_history_snd, add_to_history, Store.find_set_self]

theorem dequeAppend_eq_drop (n : Nat) (l : List Turn) (t : Turn) :
    dequeAppend n l t = (l ++ [t]).drop (l.length + 1 - n) := by
  simp only [dequeAppend]
  by_cases hc : n < (l ++ [t]).length
  · rw [if_pos hc]
    have he : (l ++ [t]).length - n = l.length + 1 - n := by simp
    rw [he]
  · rw [if_neg hc]
    have h1 : l.length + 1 - n = 0 := by
      simp at hc
      omega
    rw [h1, List.drop_zero]

theorem drop_append_singleton (k : Nat) (l : List Turn) (t : Turn)
    (h : k ≤ l.length) : l.drop k ++ [t] = (l ++ [t]).drop k := by
  rw [List.drop_append_of_le_length h]

theorem foldl_dequeAppend_eq_drop (ts : List Turn) :
    ts.foldl (dequeAppend MAX_CONTEXT_MESSAGES) [] =
      ts.drop (ts.length - MAX_CONTEXT_MESSAGES) := by
  induction ts using List.reverseRecOn with
  | nil => simp
  | append_singleton ts t ih =>
    rw [List.foldl_append, List.foldl_cons, List.foldl_nil, ih,
      dequeAppend_eq_drop, List.length_drop,
      drop_append_singleton _ _ _ (Nat.sub_le _ _), List.drop_drop]
    congr 1
    simp only [List.length_append, List.length_cons, List.length_nil]
    omega

theorem get_history_foldl_add (u : String) :
    ∀ (ts : List Turn) (s : Store),
      (get_history
          (ts.foldl (fun st t => add_to_history st u t.role t.content) s)
          u).2 =
        ts.foldl (dequeAppend MAX_CONTEXT_MESSAGES) ((get_history s u).2) := by
  intro ts
  induction ts with
  | nil => intro s; rfl
  | cons t ts ih =>
    intro s
    rw [List.foldl_cons, List.foldl_cons, ih, get_history_add_self]

/-- C3: for every user identifier and every sequence of appends to that
user's history (starting from a store where the user is unseen), a
subsequent `get_history` lookup returns exactly `min(count, N)` turns with
`N = MAX_CONTEXT_MESSAGES = 10`, equal to the most recently appended
`min(count, N)` turns in their original append order — the oldest are
evicted first (FIFO). Stated for an arbitrary number of appends, which
covers every `N + k` with `k ≥ 0`. -/
theorem C3_history_bounded_fifo (u : String) (s : Store) (ts : List Turn)
    (h : Store.find s u = none) :
    (get_history
        (ts.foldl (fun st t => add_to_history st u t.role t.content) s)
        u).2 =
      ts.drop (ts.length - MAX_CONTEXT_MESSAGES) ∧
    (get_history
        (ts.foldl (fun st t => add_to_history st u t.role t.content) s)
        u).2.length =
      min ts.length MAX_CONTEXT_MESSAGES := by
  have h0 : (get_history s u).2 = [] := by
    rw [get_history_snd, h]
    rfl
  have key := get_history_foldl_add u ts s
  rw [h0, foldl_dequeAppend_eq_drop] at key
  refine ⟨key, ?_⟩
  rw [key, List.length_drop]
  omega

/-- Witness for C3: twelve appends to user `"u1"` in the empty store leave
exactly the last ten turns, in order. -/
theorem C3_history_bounded_fifo_witness :
    Store.find ([] : Store) "u1" = none ∧
    ((get_history
        (([⟨"user", "m1"⟩, ⟨"assistant", "r1"⟩, ⟨"user", "m2"⟩,
            ⟨"assistant", "r2"⟩, ⟨"user", "m3"⟩, ⟨"assistant", "r3"⟩,
            ⟨"user", "m4"⟩, ⟨"assistant", "r4"⟩, ⟨"user", "m5"⟩,
            ⟨"assistant", "r5"⟩, ⟨"user", "m6"⟩, ⟨"assistant", "r6"⟩] :
              List Turn).foldl
          (fun st t => add_to_history st "u1" t.role t.content) [])
        "u1").2 =
      ([⟨"user", "m1"⟩, ⟨"assistant", "r1"⟩, ⟨"user", "m2"⟩,
          ⟨"assistant", "r2"⟩, ⟨"user", "m3"⟩, ⟨"assistant", "r3"⟩,
          ⟨"user", "m4"⟩, ⟨"assistant", "r4"⟩, ⟨"user", "m5"⟩,
          ⟨"assistant", "r5"⟩, ⟨"user", "m6"⟩, ⟨"assistant", "r6"⟩] :
            List Turn).drop
        (([⟨"user", "m1"⟩, ⟨"assistant", "r1"⟩, ⟨"user", "m2"⟩,
            ⟨"assistant", "r2"⟩, ⟨"user", "m3"⟩, ⟨"assistant", "r3"⟩,
            ⟨"user", "m4"⟩, ⟨"assistant", "r4"⟩, ⟨"user", "m5"⟩,
            ⟨"assistant", "r5"⟩, ⟨"user", "m6"⟩, ⟨"assistant", "r6"⟩] :
              List Turn).length - MAX_CONTEXT_MESSAGES) ∧
      (get_history
          (([⟨"user", "m1"⟩, ⟨"assistant", "r1"⟩, ⟨"user", "m2"⟩,
              ⟨"assistant", "r2"⟩, ⟨"user", "m3"⟩, ⟨"assistant", "r3"⟩,
              ⟨"user", "m4"⟩, ⟨"assistant", "r4"⟩, ⟨"user", "m5"⟩,
              ⟨"assistant", "r5"⟩, ⟨"user", "m6"⟩, ⟨"assistant", "r6"⟩] :
                List Turn).foldl
            (fun st t => add_to_history st "u1" t.role t.content) [])
          "u1").2.length =
        min ([⟨"user", "m1"⟩, ⟨"assistant", "r1"⟩, ⟨"user", "m2"⟩,
            ⟨"assistant", "r2"⟩, ⟨"user", "m3"⟩, ⟨"assistant", "r3"⟩,
            ⟨"user", "m4"⟩, ⟨"assistant", "r4"⟩, ⟨"user", "m5"⟩,
            ⟨"assistant", "r5"⟩, ⟨"user", "m6"⟩, ⟨"assistant", "r6"⟩] :
              List Turn).length MAX_CONTEXT_MESSAGES) :=
  ⟨by decide,
    C3_history_bounded_fifo "u1" []
      [⟨"user", "m1"⟩, ⟨"assistant", "r1"⟩, ⟨"user", "m2"⟩,
        ⟨"assistant", "r2"⟩, ⟨"user", "m3"⟩, ⟨"assistant", "r3"⟩,
        ⟨"user", "m4"⟩, ⟨"assistant", "r4"⟩, ⟨"user", "m5"⟩,
        ⟨"assistant", "r5"⟩, ⟨"user", "m6"⟩, ⟨"assistant", "r6"⟩]
      (by decide)⟩

/-- C9: a `get_history` lookup for a user with no prior append returns the
empty sequence, does so again on a repeated lookup, and the `defaultdict`
entry it creates is not observable through any other lookup made before any
append: every lookup returns the same turns before and after. -/
theorem C9_unseen_lookup_idempotent (s : Store) (u : String)
    (h : Store.find s u = none) :
    (get_history s u).2 = [] ∧
    (get_history (get_history s u).1 u).2 = [] ∧
    ∀ v : String,
      (get_history (get_history s u).1 v).2 = (get_history s v).2 := by
  have h1 : get_history s u = (Store.set s u [], []) := by
    simp [get_history, h]
  refine ⟨by rw [h1], ?_, ?_⟩
  · rw [h1]
    simp [get_history_snd, Store.find_set_self]
  · intro v
    rw [h1]
    by_cases hv : v = u
    · subst hv
      simp [get_history_snd, Store.find_set_self, h]
    · simp [get_history_snd, Store.find_set_ne s u v [] hv]

/-- Witness for C9 at an empty store and user `"stranger"`. -/
theorem C9_unseen_lookup_idempotent_witness :
    Store.find ([] : Store) "stranger" = none ∧
    ((get_history ([] : Store) "stranger").2 = [] ∧
      (get_history (get_history ([] : Store) "stranger").1 "stranger").2 = [] ∧
      ∀ v : String,
        (get_history (get_history ([] : Store) "stranger").1 v).2 =
          (get_history ([] : Store) v).2) :=
  ⟨by decide, C9_unseen_lookup_idempotent [] "stranger" (by decide)⟩

/-- C10: appending a turn for user `u` leaves both the stored entry and the
looked-up history of every other user `v` unchanged — per-user histories
are isolated. -/
theorem C10_append_isolated (s : Store) (u v r c : String) (h : v ≠ u) :
    Store.find (add_to_history s u r c) v = Store.find s v ∧
    (get_history (add_to_history s u r c) v).2 = (get_history s v).2 := by
  have hf : Store.find (add_to_history s u r c) v = Store.find s v := by
    simp [add_to_history, Store.find_set_ne s u v _ h]
  exact ⟨hf, by simp [get_history_snd, hf]⟩

/-- Witness for C10: an append for `"alice"` does not touch `"bob"`. -/
theorem C10_append_isolated_witness :
    ("bob" : String) ≠ "alice" ∧
    (Store.find (add_to_history [("bob", [⟨"user", "hi"⟩])] "alice" "user" "yo")
        "bob" =
      Store.find [("bob", [⟨"user", "hi"⟩])] "bob" ∧
    (get_history (add_to_history [("bob", [⟨"user", "hi"⟩])] "alice" "user" "yo")
        "bob").2 =
      (get_history [("bob", [⟨"user", "hi"⟩])] "bob").2) :=
  ⟨by decide,
    C10_append_isolated [("bob", [⟨"user", "hi"⟩])] "alice" "bob" "user" "yo"
      (by decide)⟩

/-- C5: a POST request whose `x-hub-signature-256` header differs from the
expected HMAC of the raw body is answered with the bad-signature JSON body
and status 200, with the store returned unchanged and no outbound send; the
statement is universally quantified over `parse` and `provider`, so the
response is independent of both — no payload parse and no provider call can
influence it. -/
theorem C5_bad_signature_rejected_without_effect
    (mac : String → List Nat → String)
    (parse : List Nat → Except String Payload)
    (cfg : Config) (provider : List Turn → ProviderResult)
    (s : Store) (raw_body : List Nat) (signature : String)
    (h : signature ≠ expected_signature mac cfg.APP_SECRET raw_body) :
    webhook mac parse cfg provider s raw_body signature =
      Except.ok (Response.badSignature, s, []) ∧
    Response.body Response.badSignature = "\x7b\"status\": \"bad signature\"\x7d" ∧
    Response.status_code Response.badSignature = 200 := by
  refine ⟨?_, rfl, rfl⟩
  simp [webhook, verify_signature, h]

/-- Witness for C5: an empty (missing) signature header on a nonempty
store. -/
theorem C5_bad_signature_rejected_without_effect_witness :
    ("" : String) ≠ expected_signature (fun _ _ => "mac") "S" [7] ∧
    (webhook (fun _ _ => "mac") (fun _ => Except.ok ⟨none⟩)
        ⟨"V", "S", "P", "K", "SP"⟩ (fun _ => ProviderResult.failure "e")
        [("bob", [⟨"user", "hi"⟩])] [7] "" =
      Except.ok (Response.badSignature, [("bob", [⟨"user", "hi"⟩])], []) ∧
    Response.body Response.badSignature = "\x7b\"status\": \"bad signature\"\x7d" ∧
    Response.status_code Response.badSignature = 200) :=
  ⟨by decide,
    C5_bad_signature_rejected_without_effect (fun _ _ => "mac")
      (fun _ => Except.ok ⟨none⟩) ⟨"V", "S", "P", "K", "SP"⟩
      (fun _ => ProviderResult.failure "e") [("bob", [⟨"user", "hi"⟩])] [7] ""
      (by decide)⟩

/-- C2 counterexample: a request with a valid signature whose body fails
JSON decoding makes the handler propagate the parse exception instead of
returning the ok acknowledgment — `json.loads` at line 80 sits outside the
`try` block. -/
theorem C2_parse_error_escapes_counterexample :
    webhook (fun _ _ => "mac") (fun _ => Except.error "JSONDecodeError")
      ⟨"VERIFY_TOKEN", "APP_SECRET", "", "sk-key", ""⟩
      (fun _ => ProviderResult.success (some "ок"))
      [] [123] "sha256=mac" =
      Except.error "JSONDecodeError" := by
  rfl

/-- C2 (amended): once the body has been JSON-parsed successfully, every
exception raised while dispatching to sub-events is caught inside the
handler, which still acknowledges with the ok body and status 200 together
with whatever effects were made before the fault; an exception from
decoding/JSON-parsing the body itself, however, propagates out of the
handler. -/
theorem C2_dispatch_errors_swallowed
    (mac : String → List Nat → String)
    (parse : List Nat → Except String Payload)
    (cfg : Config) (provider : List Turn → ProviderResult)
    (s : Store) (raw_body : List Nat) (sig : String) (data : Payload)
    (hsig : sig = expected_signature mac cfg.APP_SECRET raw_body)
    (hparse : parse raw_body = Except.ok data) :
    webhook mac parse cfg provider s raw_body sig =
      Except.ok (Response.ok, (process_event cfg provider data s).1,
        (process_event cfg provider data s).2.1) ∧
    Response.status_code Response.ok = 200 := by
  refine ⟨?_, rfl⟩
  simp [webhook, verify_signature, hsig, hparse]

/-- Witness for C2 (amended): a payload whose `"entry"` key is missing
raises inside the `try` (a dispatch fault), and the handler still returns
the ok acknowledgment with no effects. -/
theorem C2_dispatch_errors_swallowed_witness :
    ("sha256=m" : String) = expected_signature (fun _ _ => "m") "S" [0] ∧
    ((fun _ => Except.ok (⟨none⟩ : Payload)) ([0] : List Nat) =
      (Except.ok (⟨none⟩ : Payload) : Except String Payload)) ∧
    (webhook (fun _ _ => "m") (fun _ => Except.ok ⟨none⟩)
        ⟨"V", "S", "", "", ""⟩ (fun _ => ProviderResult.failure "e")
        [] [0] "sha256=m" =
      Except.ok (Response.ok,
        (process_event ⟨"V", "S", "", "", ""⟩
          (fun _ => ProviderResult.failure "e") ⟨none⟩ []).1,
        (process_event ⟨"V", "S", "", "", ""⟩
          (fun _ => ProviderResult.failure "e") ⟨none⟩ []).2.1) ∧
    Response.status_code Response.ok = 200) :=
  ⟨by decide, rfl,
    C2_dispatch_errors_swallowed (fun _ _ => "m") (fun _ => Except.ok ⟨none⟩)
      ⟨"V", "S", "", "", ""⟩ (fun _ => ProviderResult.failure "e")
      [] [0] "sha256=m" ⟨none⟩ (by decide) rfl⟩

/-- C4 counterexample: a validly-signed delivery with two entries where the
second entry carries a well-formed text message produces no history
mutation and no outbound send at all — `entry = data["entry"][0]` discards
every entry after the first. -/
theorem C4_second_entry_ignored_counterexample :
    webhook (fun _ _ => "mac")
      (fun _ => Except.ok
        ⟨some [⟨[]⟩, ⟨[⟨some "u2", some ⟨some "привет", none, false⟩⟩]⟩]⟩)
      ⟨"V", "S", "", "sk", ""⟩ (fun _ => ProviderResult.success (some "ответ"))
      [] [5] "sha256=mac" =
      Except.ok (Response.ok, [], []) := by
  rfl

/-- C4 (amended): for a validly-signed delivery, only the first element of
the `entry` array is dispatched — each of its message sub-events is
filtered and handled by `process_messaging` — and the outcome is
independent of every entry after the first, which are ignored. -/
theorem C4_first_entry_only_dispatched
    (mac : String → List Nat → String)
    (parse : List Nat → Except String Payload)
    (cfg : Config) (provider : List Turn → ProviderResult)
    (s : Store) (raw_body : List Nat) (sig : String)
    (e : Entry) (rest : List Entry)
    (hsig : sig = expected_signature mac cfg.APP_SECRET raw_body)
    (hparse : parse raw_body = Except.ok ⟨some (e :: rest)⟩) :
    webhook mac parse cfg provider s raw_body sig =
      Except.ok (Response.ok,
        (process_messaging cfg provider e.messaging s []).1,
        (process_messaging cfg provider e.messaging s []).2.1) := by
  simp [webhook, verify_signature, hsig, hparse, process_event]

/-- Witness for C4 (amended): one text message in the first entry, an
ignored second entry. -/
theorem C4_first_entry_only_dispatched_witness :
    ("sha256=m" : String) = expected_signature (fun _ _ => "m") "S" [1] ∧
    ((fun _ => Except.ok
        (⟨some [⟨[⟨some "u9", some ⟨some "hello", none, false⟩⟩]⟩, ⟨[]⟩]⟩ :
          Payload)) ([1] : List Nat) =
      (Except.ok
        (⟨some [⟨[⟨some "u9", some ⟨some "hello", none, false⟩⟩]⟩, ⟨[]⟩]⟩ :
          Payload) : Except String Payload)) ∧
    webhook (fun _ _ => "m")
      (fun _ => Except.ok
        ⟨some [⟨[⟨some "u9", some ⟨some "hello", none, false⟩⟩]⟩, ⟨[]⟩]⟩)
      ⟨"V", "S", "", "", ""⟩ (fun _ => ProviderResult.failure "e")
      [] [1] "sha256=m" =
      Except.ok (Response.ok,
        (process_messaging ⟨"V", "S", "", "", ""⟩
          (fun _ => ProviderResult.failure "e")
          (Entry.mk [⟨some "u9", some ⟨some "hello", none, false⟩⟩]).messaging
          [] []).1,
        (process_messaging ⟨"V", "S", "", "", ""⟩
          (fun _ => ProviderResult.failure "e")
          (Entry.mk [⟨some "u9", some ⟨some "hello", none, false⟩⟩]).messaging
          [] []).2.1) :=
  ⟨by decide, rfl,
    C4_first_entry_only_dispatched (fun _ _ => "m")
      (fun _ => Except.ok
        ⟨some [⟨[⟨some "u9", some ⟨some "hello", none, false⟩⟩]⟩, ⟨[]⟩]⟩)
      ⟨"V", "S", "", "", ""⟩ (fun _ => ProviderResult.failure "e")
      [] [1] "sha256=m"
      (Entry.mk [⟨some "u9", some ⟨some "hello", none, false⟩⟩]) [⟨[]⟩]
      (by decide) rfl⟩

theorem string_append_left_cancel (a b c : String) (h : a ++ b = a ++ c) :
    b = c := by
  have hd : a.data ++ b.data = a.data ++ c.data := by
    rw [← String.data_append, ← String.data_append, h]
  exact String.ext (List.append_cancel_left hd)

theorem expected_signature_ne_empty (mac : String → List Nat → String)
    (secret : String) (body : List Nat) :
    expected_signature mac secret body ≠ "" := by
  intro h
  have hlen := congrArg String.length h
  rw [expected_signature, String.length_append] at hlen
  have h7 : ("sha256=" : String).length = 7 := rfl
  have h0 : ("" : String).length = 0 := rfl
  rw [h7, h0] at hlen
  omega

/-- C6: the handler accepts a signature exactly when it equals
`"sha256=" ++ mac(secret, body)` recomputed from the raw body (the
constant-time `compare_digest` has the value of exact equality, and the
computation is a pure function of `(secret, body)`); any altered signature
header fails; any altered body whose keyed hash differs — which is what
flipping a byte yields for the external HMAC-SHA256 primitive, modelled
here as the abstract `mac` — fails; an empty (missing) header always
fails. -/
theorem C6_signature_verification_exact
    (mac : String → List Nat → String) (secret : String)
    (body body2 : List Nat) (sig sig2 : String)
    (hsig : sig = expected_signature mac secret body)
    (hflip : sig2 ≠ sig)
    (hmac : mac secret body2 ≠ mac secret body) :
    (∀ s0 : String, verify_signature mac secret body s0 = true ↔
        s0 = "sha256=" ++ mac secret body) ∧
    verify_signature mac secret body sig = true ∧
    verify_signature mac secret body sig2 = false ∧
    verify_signature mac secret body2 sig = false ∧
    verify_signature mac secret body "" = false := by
  refine ⟨?_, ?_, ?_, ?_, ?_⟩
  · intro s0
    simp [verify_signature, expected_signature]
  · simp [verify_signature, hsig]
  · have hne : sig2 ≠ expected_signature mac secret body := by
      rw [← hsig]
      exact hflip
    simp [verify_signature, hne]
  · have hne : sig ≠ expected_signature mac secret body2 := by
      rw [hsig]
      simp only [expected_signature]
      intro he
      exact hmac (string_append_left_cancel "sha256=" _ _ he).symm
    simp [verify_signature, hne]
  · have hne : ("" : String) ≠ expected_signature mac secret body :=
      fun h => expected_signature_ne_empty mac secret body h.symm
    simp [verify_signature, hne]

/-- Witness for C6 at a concrete keyed-hash function, body, flipped body
and flipped header. -/
theorem C6_signature_verification_exact_witness :
    ("sha256=S" : String) =
      expected_signature (fun _ b => if 2 < b.length then "L" else "S") "K"
        [1, 2] ∧
    ("sha256=X" : String) ≠ "sha256=S" ∧
    (fun _ b => if 2 < b.length then "L" else "S") "K" [1, 2, 3] ≠
      (fun _ b => if 2 < b.length then "L" else "S") "K" [1, 2] ∧
    ((∀ s0 : String,
        verify_signature (fun _ b => if 2 < b.length then "L" else "S") "K"
            [1, 2] s0 = true ↔
          s0 = "sha256=" ++
            (fun _ b => if 2 < b.length then "L" else "S") "K" [1, 2]) ∧
      verify_signature (fun _ b => if 2 < b.length then "L" else "S") "K"
        [1, 2] "sha256=S" = true ∧
      verify_signature (fun _ b => if 2 < b.length then "L" else "S") "K"
        [1, 2] "sha256=X" = false ∧
      verify_signature (fun _ b => if 2 < b.length then "L" else "S") "K"
        [1, 2, 3] "sha256=S" = false ∧
      verify_signature (fun _ b => if 2 < b.length then "L" else "S") "K"
        [1, 2] "" = false) :=
  ⟨by decide, by decide, by decide,
    C6_signature_verification_exact
      (fun _ b => if 2 < b.length then "L" else "S") "K" [1, 2] [1, 2, 3]
      "sha256=S" "sha256=X" (by decide) (by decide) (by decide)⟩

/-- C8: a message sub-event flagged `is_echo: true` is skipped by the
dispatch loop — no history append, no outbound send — and a validly-signed
delivery consisting of such an echo event is acknowledged with the ok body
and an unchanged store. -/
theorem C8_echo_ignored (cfg : Config) (provider : List Turn → ProviderResult)
    (msg : Msg) (m : MessageBlock) (rest : List Msg) (s : Store)
    (sends : List (String × String))
    (mac : String → List Nat → String)
    (parse : List Nat → Except String Payload)
    (raw_body : List Nat) (sig : String)
    (hm : msg.message = some m) (hecho : m.is_echo = some true)
    (hsig : sig = expected_signature mac cfg.APP_SECRET raw_body)
    (hparse : parse raw_body = Except.ok ⟨some [⟨[msg]⟩]⟩) :
    process_messaging cfg provider (msg :: rest) s sends =
      process_messaging cfg provider rest s sends ∧
    webhook mac parse cfg provider s raw_body sig =
      Except.ok (Response.ok, s, []) := by
  have hne : m.isEmptyDict = false := by
    simp [MessageBlock.isEmptyDict, hecho]
  have hskip : ∀ (s0 : Store) (sd : List (String × String)) (r : List Msg),
      process_messaging cfg provider (msg :: r) s0 sd =
        process_messaging cfg provider r s0 sd := by
    intro s0 sd r
    simp [process_messaging, hm, hne, hecho]
  refine ⟨hskip s sends rest, ?_⟩
  simp [webhook, verify_signature, hsig, hparse, process_event,
    process_messaging, hm, hne, hecho]

/-- Witness for C8: a single echo message in a validly-signed delivery. -/
theorem C8_echo_ignored_witness :
    (Msg.mk (some "u") (some ⟨some "hi", some true, false⟩)).message =
      some (⟨some "hi", some true, false⟩ : MessageBlock) ∧
    (⟨some "hi", some true, false⟩ : MessageBlock).is_echo = some true ∧
    ("sha256=m" : String) = expected_signature (fun _ _ => "m") "S" [9] ∧
    ((fun _ => Except.ok
        (⟨some [⟨[⟨some "u", some ⟨some "hi", some true, false⟩⟩]⟩]⟩ :
          Payload)) ([9] : List Nat) =
      (Except.ok
        (⟨some [⟨[⟨some "u", some ⟨some "hi", some true, false⟩⟩]⟩]⟩ :
          Payload) : Except String Payload)) ∧
    (process_messaging ⟨"V", "S", "", "", ""⟩ (fun _ => ProviderResult.failure "e")
        [⟨some "u", some ⟨some "hi", some true, false⟩⟩, ⟨some "w", none⟩]
        [("bob", [⟨"user", "x"⟩])] [] =
      process_messaging ⟨"V", "S", "", "", ""⟩ (fun _ => ProviderResult.failure "e")
        [⟨some "w", none⟩] [("bob", [⟨"user", "x"⟩])] [] ∧
    webhook (fun _ _ => "m")
      (fun _ => Except.ok
        ⟨some [⟨[⟨some "u", some ⟨some "hi", some true, false⟩⟩]⟩]⟩)
      ⟨"V", "S", "", "", ""⟩ (fun _ => ProviderResult.failure "e")
      [("bob", [⟨"user", "x"⟩])] [9] "sha256=m" =
      Except.ok (Response.ok, [("bob", [⟨"user", "x"⟩])], [])) :=
  ⟨rfl, rfl, by decide, rfl,
    C8_echo_ignored ⟨"V", "S", "", "", ""⟩ (fun _ => ProviderResult.failure "e")
      ⟨some "u", some ⟨some "hi", some true, false⟩⟩
      ⟨some "hi", some true, false⟩ [⟨some "w", none⟩]
      [("bob", [⟨"user", "x"⟩])] [] (fun _ _ => "m")
      (fun _ => Except.ok
        ⟨some [⟨[⟨some "u", some ⟨some "hi", some true, false⟩⟩]⟩]⟩)
      [9] "sha256=m" rfl rfl (by decide) rfl⟩

/-- C7 counterexample: a sub-event whose `message` object is non-empty but
carries no `text` key (here only `is_echo: false`) lacks a text-bearing
payload, yet the loop processes it with `text = ""`: a `user` turn with
empty content and an `assistant` turn are recorded and an outbound send is
made (with the no-API-key fallback, the configuration in this instance). -/
theorem C7_textless_message_processed_counterexample :
    process_messaging ⟨"V", "S", "", "", ""⟩ (fun _ => ProviderResult.failure "e")
        [⟨some "u7", some ⟨none, some false, false⟩⟩] [] [] =
      ([("u7", [⟨"user", ""⟩, ⟨"assistant", FALLBACK_NO_KEY⟩])],
        [("u7", FALLBACK_NO_KEY)], none) := by
  rfl

/-- C7 (amended): a sub-event whose `message` field is absent or an empty
object is ignored entirely — no turn recorded, no reply generated — but a
sub-event whose `message` object is non-empty while lacking a `text` key is
treated as a text message with empty text and is processed normally. -/
theorem C7_messageless_event_ignored (cfg : Config)
    (provider : List Turn → ProviderResult) (msg : Msg) (rest : List Msg)
    (s : Store) (sends : List (String × String))
    (h : msg.message = none ∨
      ∃ m, msg.message = some m ∧ m.isEmptyDict = true) :
    process_messaging cfg provider (msg :: rest) s sends =
      process_messaging cfg provider rest s sends := by
  rcases h with h | ⟨m, hm, he⟩
  · simp [process_messaging, h]
  · simp [process_messaging, hm, he]

/-- Witness for C7 (amended): a `message_edit`-style sub-event with no
`message` block leaves store and sends untouched. -/
theorem C7_messageless_event_ignored_witness :
    ((Msg.mk (some "u") none).message = none ∨
      ∃ m, (Msg.mk (some "u") none).message = some m ∧
        m.isEmptyDict = true) ∧
    process_messaging ⟨"V", "S", "", "k", ""⟩ (fun _ => ProviderResult.failure "e")
        [⟨some "u", none⟩] [("bob", [⟨"user", "x"⟩])] [] =
      process_messaging ⟨"V", "S", "", "k", ""⟩ (fun _ => ProviderResult.failure "e")
        [] [("bob", [⟨"user", "x"⟩])] [] :=
  ⟨Or.inl rfl,
    C7_messageless_event_ignored ⟨"V", "S", "", "k", ""⟩
      (fun _ => ProviderResult.failure "e") ⟨some "u", none⟩ []
      [("bob", [⟨"user", "x"⟩])] [] (Or.inl rfl)⟩

theorem dequeAppend_eq_append_singleton (n : Nat) (hn : 0 < n)
    (l : List Turn) (t : Turn) :
    dequeAppend n l t = l.drop (l.length + 1 - n) ++ [t] := by
  rw [dequeAppend_eq_drop,
    ← drop_append_singleton (l.length + 1 - n) l t (by omega)]

theorem dequeAppend_twice_ends (n : Nat) (hn : 2 ≤ n) (l : List Turn)
    (a b : Turn) :
    ∃ pre, dequeAppend n (dequeAppend n l a) b = pre ++ [a, b] := by
  rw [dequeAppend_eq_append_singleton n (by omega) l a]
  rw [dequeAppend_eq_append_singleton n (by omega)]
  have hlen : (l.drop (l.length + 1 - n) ++ [a]).length =
      l.length - (l.length + 1 - n) + 1 := by
    simp
  rw [hlen]
  have hle : l.length - (l.length + 1 - n) + 1 + 1 - n ≤
      (l.drop (l.length + 1 - n)).length := by
    rw [List.length_drop]
    omega
  rw [← drop_append_singleton _ _ _ hle]
  exact ⟨(l.drop (l.length + 1 - n)).drop
    (l.length - (l.length + 1 - n) + 1 + 1 - n), by simp⟩

/-- C1 counterexample: with the completion provider raising, the reply is
the fixed fallback string, but — contrary to the claim — the fallback IS
recorded as an `assistant` turn: line 111 appends the reply to history
unconditionally. -/
theorem C1_fallback_recorded_counterexample :
    (handle_text_message ⟨"V", "S", "", "sk", ""⟩
        (fun _ => ProviderResult.failure "boom") [] "u1" "привет").2 =
      FALLBACK_ERROR ∧
    (get_history (handle_text_message ⟨"V", "S", "", "sk", ""⟩
        (fun _ => ProviderResult.failure "boom") [] "u1" "привет").1
      "u1").2 =
      [⟨"user", "привет"⟩, ⟨"assistant", FALLBACK_ERROR⟩] ∧
    (⟨"assistant", FALLBACK_ERROR⟩ : Turn) ∈
      (get_history (handle_text_message ⟨"V", "S", "", "sk", ""⟩
          (fun _ => ProviderResult.failure "boom") [] "u1" "привет").1
        "u1").2 := by
  refine ⟨rfl, rfl, ?_⟩
  decide

/-- C1 (amended): for every inbound text message, if the provider call
fails (raises, yields `None` content, or yields empty/whitespace-only
output), the returned reply equals the fixed fallback apology string for
that failure mode, and afterwards the stored history for that user is the
previous history with the `user` turn AND an `assistant` turn holding the
fallback appended under the 10-item FIFO bound — in particular it ends
with the user turn followed by that assistant turn. -/
theorem C1_provider_failure_fallback_recorded (cfg : Config)
    (provider : List Turn → ProviderResult) (s : Store) (u text fb : String)
    (hkey : cfg.OPENAI_API_KEY ≠ "")
    (hfail : provider_fallback (provider
        (⟨"system", if cfg.SYSTEM_PROMPT = "" then base_system_prompt
            else cfg.SYSTEM_PROMPT⟩ ::
          (get_history (add_to_history s u "user" text) u).2)) = some fb) :
    (handle_text_message cfg provider s u text).2 = fb ∧
    (get_history (handle_text_message cfg provider s u text).1 u).2 =
      dequeAppend MAX_CONTEXT_MESSAGES
        (dequeAppend MAX_CONTEXT_MESSAGES ((get_history s u).2)
          ⟨"user", text⟩)
        ⟨"assistant", fb⟩ ∧
    ∃ pre, (get_history (handle_text_message cfg provider s u text).1 u).2 =
      pre ++ [⟨"user", text⟩, ⟨"assistant", fb⟩] := by
  have hfind : Store.find (add_to_history s u "user" text) u =
      some (dequeAppend MAX_CONTEXT_MESSAGES ((Store.find s u).getD [])
        ⟨"user", text⟩) := by
    simp [add_to_history, Store.find_set_self]
  have hread : get_history (add_to_history s u "user" text) u =
      (add_to_history s u "user" text,
        dequeAppend MAX_CONTEXT_MESSAGES ((Store.find s u).getD [])
          ⟨"user", text⟩) := by
    simp [get_history, hfind]
  have hgen : generate_ai_reply cfg provider (add_to_history s u "user" text)
      u = (add_to_history s u "user" text, fb) := by
    rw [hread] at hfail
    cases hp : provider
        (⟨"system", if cfg.SYSTEM_PROMPT = "" then base_system_prompt
            else cfg.SYSTEM_PROMPT⟩ ::
          dequeAppend MAX_CONTEXT_MESSAGES ((Store.find s u).getD [])
            ⟨"user", text⟩) with
    | failure e =>
      rw [hp] at hfail
      simp only [provider_fallback, Option.some.injEq] at hfail
      simp [generate_ai_reply, hkey, hread, hp, hfail]
    | success c =>
      cases c with
      | none =>
        rw [hp] at hfail
        simp only [provider_fallback, Option.some.injEq] at hfail
        simp [generate_ai_reply, hkey, hread, hp, hfail]
      | some ct =>
        rw [hp] at hfail
        simp only [provider_fallback] at hfail
        by_cases htrim : ct.trim = ""
        · rw [if_pos htrim] at hfail
          simp only [Option.some.injEq] at hfail
          simp [generate_ai_reply, hkey, hread, hp, htrim, hfail]
        · rw [if_neg htrim] at hfail
          exact absurd hfail (by simp)
  have hhistory : (get_history (handle_text_message cfg provider s u text).1
      u).2 =
      dequeAppend MAX_CONTEXT_MESSAGES
        (dequeAppend MAX_CONTEXT_MESSAGES ((get_history s u).2)
          ⟨"user", text⟩)
        ⟨"assistant", fb⟩ := by
    simp only [handle_text_message, hgen]
    rw [get_history_add_self, get_history_add_self]
  refine ⟨by simp [handle_text_message, hgen], hhistory, ?_⟩
  rw [hhistory]
  exact dequeAppend_twice_ends MAX_CONTEXT_MESSAGES (by decide)
    ((get_history s u).2) ⟨"user", text⟩ ⟨"assistant", fb⟩

/-- Witness for C1 (amended): provider raising on a fresh user. -/
theorem C1_provider_failure_fallback_recorded_witness :
    ((⟨"V", "S", "", "sk", ""⟩ : Config).OPENAI_API_KEY ≠ "") ∧
    provider_fallback ((fun _ => ProviderResult.failure "boom")
        (⟨"system", if (⟨"V", "S", "", "sk", ""⟩ : Config).SYSTEM_PROMPT = ""
            then base_system_prompt
            else (⟨"V", "S", "", "sk", ""⟩ : Config).SYSTEM_PROMPT⟩ ::
          (get_history (add_to_history [] "u1" "user" "привет") "u1").2)) =
      some FALLBACK_ERROR ∧
    ((handle_text_message ⟨"V", "S", "", "sk", ""⟩
        (fun _ => ProviderResult.failure "boom") [] "u1" "привет").2 =
      FALLBACK_ERROR ∧
    (get_history (handle_text_message ⟨"V", "S", "", "sk", ""⟩
        (fun _ => ProviderResult.failure "boom") [] "u1" "привет").1
      "u1").2 =
      dequeAppend MAX_CONTEXT_MESSAGES
        (dequeAppend MAX_CONTEXT_MESSAGES
          ((get_history [] "u1").2) ⟨"user", "привет"⟩)
        ⟨"assistant", FALLBACK_ERROR⟩ ∧
    ∃ pre, (get_history (handle_text_message ⟨"V", "S", "", "sk", ""⟩
        (fun _ => ProviderResult.failure "boom") [] "u1" "привет").1
      "u1").2 =
      pre ++ [⟨"user", "привет"⟩, ⟨"assistant", FALLBACK_ERROR⟩]) :=
  ⟨by decide, rfl,
    C1_provider_failure_fallback_recorded ⟨"V", "S", "", "sk", ""⟩
      (fun _ => ProviderResult.failure "boom") [] "u1" "привет"
      FALLBACK_ERROR (by decide) rfl⟩

end InstGPT
